import Mathlib

/-!
Verification of the jobly data-access core.

A shallow embedding of the SQL-construction helpers and the Company/Job
repository model layer of the express-jobly repository, together with
theorems checking the natural-language specification against the code.

Conventions of the embedding:
* JavaScript objects whose key enumeration order matters are association
  lists `List (String × _)`.
* JavaScript `undefined` for an optional field is `Option.none`.
* SQL values travelling to and from the store are `DBValue`.
* A JS function that can `throw` is embedded in `Except AppErr`.
-/

namespace Jobly

/-- A SQL / JS value as it appears in query parameter lists and rows. -/
inductive DBValue
  | s (v : String)
  | i (v : Int)
  | b (v : Bool)
  | null
deriving DecidableEq

/-- A result row: column (or alias) names paired with values, in SELECT order. -/
abbrev Row := List (String × DBValue)

/-- The application error taxonomy (`expressError.js`): `BadRequestError`,
`NotFoundError`, plus errors surfaced by the store itself. -/
inductive AppErr
  | badRequest (msg : String)
  | notFound (msg : String)
  | storeErr (msg : String)
deriving DecidableEq

/-- First-match association-list lookup, the embedding of JS property access
`obj[key]` (an object has no duplicate keys, so first-match is exact). -/
def lookupKey {α : Type} : List (String × α) → String → Option α
  | [], _ => none
  | (k, v) :: rest, key => if k = key then some v else lookupKey rest key

/-! ## helpers/sql.js : sqlForPartialUpdate -/

/-- Result shape of `sqlForPartialUpdate`. -/
structure SetClause where
  setCols : String
  values : List DBValue
deriving DecidableEq

/-- The column chosen for a field: `jsToSql[colName] || colName`.  JS `||`
falls back on any falsy value, so an empty-string translation also falls
back to the field name. -/
def colFor (jsToSql : List (String × String)) (c : String) : String :=
  match lookupKey jsToSql c with
  | some t => if t = "" then c else t
  | none => c

/-- One assignment fragment: `"column"=$idx+1` (the map index is 0-based). -/
def colAssign (jsToSql : List (String × String)) (c : String) (idx : Nat) : String :=
  "\"" ++ colFor jsToSql c ++ "\"=$" ++ toString (idx + 1)

/-- Embeds `keys.map((colName, idx) => ...)`: assignment fragments for the key list,
starting at 0-based index `i`. -/
def assignFrags (jsToSql : List (String × String)) : List String → Nat → List String
  | [], _ => []
  | c :: cs, i => colAssign jsToSql c i :: assignFrags jsToSql cs (i + 1)

/-- The function `sqlForPartialUpdate(dataToUpdate, jsToSql)` from `helpers/sql.js`:
rejects an empty mapping with `BadRequestError("No data")`, otherwise emits
one `"col"=$k` fragment per key in enumeration order, joined by `", "`,
with the values in the same order. -/
def sqlForPartialUpdate (dataToUpdate : List (String × DBValue))
    (jsToSql : List (String × String)) : Except AppErr SetClause :=
  if dataToUpdate.length = 0 then .error (.badRequest "No data")
  else .ok
    { setCols := String.intercalate ", " (assignFrags jsToSql (dataToUpdate.map Prod.fst) 0)
      values := dataToUpdate.map Prod.snd }

/-! ## The where-clause builders (models/company.js and models/job.js) -/

/-- JS truthiness of an optional number (`undefined` and `0` are falsy). -/
def truthyInt : Option Int → Bool
  | some v => v != 0
  | none => false

/-- JS truthiness of an optional string (`undefined` and `""` are falsy). -/
def truthyStr : Option String → Bool
  | some v => v != ""
  | none => false

/-- JS truthiness of an optional boolean (`undefined` and `false` are falsy). -/
def truthyBool : Option Bool → Bool
  | some v => v
  | none => false

/-- JS `>` on two optional numbers: comparison with `undefined` is a NaN
comparison and yields `false`. -/
def jsGT : Option Int → Option Int → Bool
  | some x, some y => x > y
  | _, _ => false

/-- The two parallel arrays `queryStatements` / `values` threaded through a
where-builder body. -/
structure WBState where
  stmts : List String
  vals : List DBValue
deriving DecidableEq

/-- One push: `queryStatements.push(frag + (values.length + 1)); values.push(v)` —
the placeholder number is the current value-array length plus one. -/
def pushCond (st : WBState) (frag : String) (v : DBValue) : WBState :=
  { stmts := st.stmts ++ [frag ++ toString (st.vals.length + 1)]
    vals := st.vals ++ [v] }

/-- The final return: an empty statement list yields the empty clause,
otherwise `"WHERE "` followed by the statements joined with `" AND "`. -/
def joinWhere (st : WBState) : String :=
  if st.stmts.length > 0 then "WHERE " ++ String.intercalate " AND " st.stmts else ""

/-- Job filter criteria as destructured by `Job.whereBuilder`
(`{ title, minSalary, hasEquity }`). -/
structure JobQuery where
  title : Option String
  minSalary : Option Int
  hasEquity : Option Bool
deriving DecidableEq

/-- The body of `Job.whereBuilder` given a present `queries` object:
`minSalary` then `hasEquity` then `title`, each guarded by JS truthiness.
`hasEquity` pushes the literal value `0`; `title` is wrapped in `%`. -/
def jobBuildState (q : JobQuery) : WBState :=
  let st0 : WBState := ⟨[], []⟩
  let st1 := if truthyInt q.minSalary then
      pushCond st0 "salary >= $" (.i (q.minSalary.getD 0)) else st0
  let st2 := if truthyBool q.hasEquity then
      pushCond st1 "equity > $" (.i 0) else st1
  let st3 := if truthyStr q.title then
      pushCond st2 "title ILIKE $" (.s ("%" ++ q.title.getD "" ++ "%")) else st2
  st3

/-- Result shape of a where-builder. -/
structure WhereClause where
  whereClause : String
  values : List DBValue
deriving DecidableEq

/-- The function `Job.whereBuilder(queries)` from `models/job.js`.  The body never
throws, so the result is always `.ok`. -/
def jobWhereBuilder (queries : Option JobQuery) : Except AppErr WhereClause :=
  let st := match queries with
    | some q => jobBuildState q
    | none => ⟨[], []⟩
  .ok ⟨joinWhere st, st.vals⟩

/-- Company filter criteria as destructured by `Company.whereBuilder`
(`{ minEmployees, maxEmployees, nameLike }`). -/
structure CompanyQuery where
  nameLike : Option String
  minEmployees : Option Int
  maxEmployees : Option Int
deriving DecidableEq

/-- The condition-building part of `Company.whereBuilder`, after the range
check has passed: `minEmployees`, then `maxEmployees`, then `nameLike`. -/
def companyBuildState (q : CompanyQuery) : WBState :=
  let st0 : WBState := ⟨[], []⟩
  let st1 := if truthyInt q.minEmployees then
      pushCond st0 "num_employees >= $" (.i (q.minEmployees.getD 0)) else st0
  let st2 := if truthyInt q.maxEmployees then
      pushCond st1 "num_employees <= $" (.i (q.maxEmployees.getD 0)) else st1
  let st3 := if truthyStr q.nameLike then
      pushCond st2 "name ILIKE $" (.s ("%" ++ q.nameLike.getD "" ++ "%")) else st2
  st3

/-- The function `Company.whereBuilder(queries)` from `models/company.js`: with a present
`queries` object it first throws `BadRequestError` when
`minEmployees > maxEmployees` (JS `>`, false when either is absent), then
builds the conditions. -/
def companyWhereBuilder (queries : Option CompanyQuery) : Except AppErr WhereClause :=
  match queries with
  | none => .ok ⟨joinWhere ⟨[], []⟩, []⟩
  | some q =>
    if jsGT q.minEmployees q.maxEmployees then
      .error (.badRequest "minimum employees cannot be greater than maximum employees")
    else
      let st := companyBuildState q
      .ok ⟨joinWhere st, st.vals⟩

/-! ## The store model

The repository's SQL schema file is not among the sources, so the table
layouts are modelled from §3 of the spec.  Each repository operation is
embedded as a function from a `Db` (and its inputs) to a result, the new
`Db`, and the trace of statements it issued to the store, in order. -/

/-- A row of the `companies` table. -/
structure CompanyRow where
  handle : DBValue
  name : DBValue
  description : DBValue
  num_employees : DBValue
  logo_url : DBValue
deriving DecidableEq

/-- A row of the `jobs` table; `id` is the store-assigned serial key. -/
structure JobRow where
  id : Nat
  title : DBValue
  salary : DBValue
  equity : DBValue
  company_handle : DBValue
deriving DecidableEq

/-- The store: both tables plus the serial counter for `jobs.id`. -/
structure Db where
  companies : List CompanyRow
  jobs : List JobRow
  nextJobId : Nat
deriving DecidableEq

/-- Modelled from the spec: the schema file is missing from the sources;
per §3 the `companies` table has exactly the columns
handle, name, description, num_employees, logo_url — in particular no
`id`, `title`, `salary`, `equity` or `company_handle` column. -/
def companyCols : List String :=
  ["handle", "name", "description", "num_employees", "logo_url"]

/-- Column access on a `companies` row; `none` means the column does not
exist and the store rejects the statement. -/
def CompanyRow.col (r : CompanyRow) : String → Option DBValue
  | "handle" => some r.handle
  | "name" => some r.name
  | "description" => some r.description
  | "num_employees" => some r.num_employees
  | "logo_url" => some r.logo_url
  | _ => none

/-- Column assignment on a `companies` row (used by UPDATE). -/
def CompanyRow.setCol (r : CompanyRow) (c : String) (v : DBValue) : CompanyRow :=
  match c with
  | "handle" => { r with handle := v }
  | "name" => { r with name := v }
  | "description" => { r with description := v }
  | "num_employees" => { r with num_employees := v }
  | "logo_url" => { r with logo_url := v }
  | _ => r

/-- Kinds of statements an operation can issue, recorded in its trace. -/
inductive Stmt
  | select (table : String)
  | insert (table : String)
  | update (table : String)
  | delete (table : String)
deriving DecidableEq

/-- JS template-literal stringification of a value (for error messages and
the `%...%` wrapping). -/
def dbValueText : DBValue → String
  | .s v => v
  | .i v => toString v
  | .b true => "true"
  | .b false => "false"
  | .null => "null"

/-! ### models/job.js : the Job repository -/

/-- The payload destructured by `Job.create`. -/
structure JobPayload where
  title : DBValue
  salary : DBValue
  equity : DBValue
  companyHandle : DBValue
deriving DecidableEq

/-- The function `Job.create(data)`: one INSERT into `jobs` with
`RETURNING title, salary, equity, company_handle AS "companyHandle"` —
the RETURNING list does not name the generated `id`.  The id is
store-assigned from the serial counter.  The foreign-key constraint on
`company_handle` (modelled from the spec, §3: the owning company must
exist) makes the statement fail when the company is absent. -/
def jobCreate (db : Db) (p : JobPayload) : Except AppErr Row × Db × List Stmt :=
  if db.companies.any (fun r => r.handle == p.companyHandle) then
    let row : JobRow := ⟨db.nextJobId, p.title, p.salary, p.equity, p.companyHandle⟩
    (.ok [("title", p.title), ("salary", p.salary), ("equity", p.equity),
        ("companyHandle", p.companyHandle)],
      { db with jobs := db.jobs ++ [row], nextJobId := db.nextJobId + 1 },
      [.insert "jobs"])
  else
    (.error (.storeErr "insert into jobs violates foreign key on company_handle"),
      db, [.insert "jobs"])

/-- The SELECT list of `Job.get`: db column and alias. -/
def jobGetSelectCols : List (String × String) :=
  [("title", "title"), ("salary", "salary"), ("equity", "equity"),
    ("company_handle", "companyHandle")]

/-- The function `Job.get(id)`: as written in models/job.js the statement is
`SELECT title, salary, equity, company_handle ... FROM companies WHERE id = $1`
— it reads the companies table.  The store rejects the statement whenever a
referenced column is absent from that table's schema. -/
def jobGet (db : Db) (id : DBValue) : Except AppErr Row × Db × List Stmt :=
  if (("id" :: jobGetSelectCols.map Prod.fst).all companyCols.contains) then
    match (db.companies.filter (fun r => r.col "id" == some id)).head? with
    | some r =>
      (.ok (jobGetSelectCols.map fun cp => (cp.2, (r.col cp.1).getD .null)),
        db, [.select "companies"])
    | none => (.error (.notFound ("No job: " ++ dbValueText id)), db, [.select "companies"])
  else
    (.error (.storeErr "column does not exist in companies"), db, [.select "companies"])

/-- The function `Job.update(id, data)`: first `sqlForPartialUpdate(data, {})` (its
`BadRequestError` propagates before any statement is issued), then — as
written in models/job.js — `UPDATE companies SET ... WHERE id = $n` with
the same RETURNING list as `Job.get`.  The store rejects the statement
whenever a referenced column is absent from the companies schema. -/
def jobUpdate (db : Db) (id : DBValue) (data : List (String × DBValue)) :
    Except AppErr Row × Db × List Stmt :=
  match sqlForPartialUpdate data [] with
  | .error e => (.error e, db, [])
  | .ok _ =>
    let setColNames := (data.map Prod.fst).map (colFor [])
    let referenced := setColNames ++ ["id"] ++ jobGetSelectCols.map Prod.fst
    if referenced.all companyCols.contains then
      let upd := fun (r : CompanyRow) =>
        if r.col "id" == some id then
          data.foldl (fun acc kv => acc.setCol (colFor [] kv.1) kv.2) r
        else r
      let db2 := { db with companies := db.companies.map upd }
      match (db2.companies.filter (fun r => r.col "id" == some id)).head? with
      | some r =>
        (.ok (jobGetSelectCols.map fun cp => (cp.2, (r.col cp.1).getD .null)),
          db2, [.update "companies"])
      | none => (.error (.notFound ("No job: " ++ dbValueText id)), db2, [.update "companies"])
    else
      (.error (.storeErr "column does not exist in companies"), db, [.update "companies"])

/-! ### models/company.js : the Company repository -/

/-- The payload destructured by `Company.create`. -/
structure CompanyPayload where
  handle : DBValue
  name : DBValue
  description : DBValue
  numEmployees : DBValue
  logoUrl : DBValue
deriving DecidableEq

/-- The function `Company.create(data)`: first a duplicate check
(`SELECT handle FROM companies WHERE handle = $1`); a non-empty result
throws `BadRequestError` before any INSERT is issued.  Otherwise one
INSERT into `companies` echoes the payload back via RETURNING (with
`numEmployees` / `logoUrl` aliases) — the uniqueness constraint on
`handle` cannot fire because the duplicate check just found no row. -/
def companyCreate (db : Db) (p : CompanyPayload) : Except AppErr Row × Db × List Stmt :=
  if db.companies.any (fun r => r.handle == p.handle) then
    (.error (.badRequest ("Duplicate company: " ++ dbValueText p.handle)),
      db, [.select "companies"])
  else
    let row : CompanyRow := ⟨p.handle, p.name, p.description, p.numEmployees, p.logoUrl⟩
    (.ok [("handle", p.handle), ("name", p.name), ("description", p.description),
        ("numEmployees", p.numEmployees), ("logoUrl", p.logoUrl)],
      { db with companies := db.companies ++ [row] },
      [.select "companies", .insert "companies"])

/-- The translation table `Company.update` passes to `sqlForPartialUpdate`. -/
def companyJsToSql : List (String × String) :=
  [("numEmployees", "num_employees"), ("logoUrl", "logo_url")]

/-- The RETURNING list of `Company.update`: db column and alias. -/
def companyUpdateReturning : List (String × String) :=
  [("handle", "handle"), ("name", "name"), ("description", "description"),
    ("num_employees", "numEmployees"), ("logo_url", "logoUrl")]

/-- The function `Company.update(handle, data)`: first `sqlForPartialUpdate` with the
Company translation table (its `BadRequestError` propagates before any
statement is issued), then `UPDATE companies SET ... WHERE handle = $n`
returning the updated row, `NotFoundError` when no row matched. -/
def companyUpdate (db : Db) (handle : DBValue) (data : List (String × DBValue)) :
    Except AppErr Row × Db × List Stmt :=
  match sqlForPartialUpdate data companyJsToSql with
  | .error e => (.error e, db, [])
  | .ok _ =>
    let setColNames := (data.map Prod.fst).map (colFor companyJsToSql)
    let referenced := setColNames ++ ["handle"] ++ companyUpdateReturning.map Prod.fst
    if referenced.all companyCols.contains then
      let upd := fun (r : CompanyRow) =>
        if r.handle == handle then
          data.foldl (fun acc kv => acc.setCol (colFor companyJsToSql kv.1) kv.2) r
        else r
      let db2 := { db with companies := db.companies.map upd }
      match (db2.companies.filter (fun r => r.handle == handle)).head? with
      | some r =>
        (.ok (companyUpdateReturning.map fun cp => (cp.2, (r.col cp.1).getD .null)),
          db2, [.update "companies"])
      | none =>
        (.error (.notFound ("No company: " ++ dbValueText handle)), db2, [.update "companies"])
    else
      (.error (.storeErr "column does not exist in companies"), db, [.update "companies"])

/-! ## Raw (association-list) filter inputs

A caller supplies filter criteria as a JS object; its fields may be written
in any order.  A raw input is an association list; destructuring reads each
named field by lookup. -/

/-- Read a string-valued field of a raw criteria object. -/
def getStrField (l : List (String × DBValue)) (k : String) : Option String :=
  match lookupKey l k with
  | some (.s v) => some v
  | _ => none

/-- Read an integer-valued field of a raw criteria object. -/
def getIntField (l : List (String × DBValue)) (k : String) : Option Int :=
  match lookupKey l k with
  | some (.i v) => some v
  | _ => none

/-- Read a boolean-valued field of a raw criteria object. -/
def getBoolField (l : List (String × DBValue)) (k : String) : Option Bool :=
  match lookupKey l k with
  | some (.b v) => some v
  | _ => none

/-- Destructure `{ title, minSalary, hasEquity }` from a raw object. -/
def parseJobQuery (l : List (String × DBValue)) : JobQuery :=
  ⟨getStrField l "title", getIntField l "minSalary", getBoolField l "hasEquity"⟩

/-- Destructure `{ minEmployees, maxEmployees, nameLike }` from a raw object. -/
def parseCompanyQuery (l : List (String × DBValue)) : CompanyQuery :=
  ⟨getStrField l "nameLike", getIntField l "minEmployees", getIntField l "maxEmployees"⟩

/-- Application of `Job.whereBuilder` to a raw criteria object. -/
def jobWhereBuilderRaw (l : List (String × DBValue)) : Except AppErr WhereClause :=
  jobWhereBuilder (some (parseJobQuery l))

/-- Application of `Company.whereBuilder` to a raw criteria object. -/
def companyWhereBuilderRaw (l : List (String × DBValue)) : Except AppErr WhereClause :=
  companyWhereBuilder (some (parseCompanyQuery l))

/-! ## Test fixtures

Concrete store states and payloads mirroring the repository's test data. -/

/-- A store holding the single company `c1` (as in `_testCommon`). -/
def dbC1 : Db :=
  ⟨[⟨.s "c1", .s "C1", .s "Desc1", .i 1, .s "http://c1.img"⟩], [], 1⟩

/-- The job-creation payload used by the repository's create test. -/
def jobPayload1 : JobPayload := ⟨.s "test job", .i 10, .s "0.1", .s "c1"⟩

/-- The store `dbC1` after `Job.create(jobPayload1)`: holds the job under id 1. -/
def dbWithJob : Db := (jobCreate dbC1 jobPayload1).2.1

/-- A company payload whose handle collides with `c1`. -/
def dupPayload : CompanyPayload :=
  ⟨.s "c1", .s "New", .s "New Description", .i 1, .s "http://new.img"⟩

/-- A company payload with a fresh handle. -/
def freshPayload : CompanyPayload :=
  ⟨.s "new", .s "New", .s "New Description", .i 1, .s "http://new.img"⟩

/-! ## Specification-side emission order

These two definitions follow the spec's words (§4.2): conditions in the
fixed entity-specific order, one per truthy criterion, placeholders
numbered consecutively from `$1` in emission order.  The order-invariance
claim compares the code's builders against them. -/

/-- Spec-side fixed-order emission for Job filters:
[minSalary, hasEquity, title]. -/
def jobEmissionSpec (q : JobQuery) : WBState :=
  ⟨(if truthyInt q.minSalary then ["salary >= $1"] else []) ++
    (if truthyBool q.hasEquity then
      ["equity > $" ++ toString ((if truthyInt q.minSalary then 1 else 0) + 1)] else []) ++
    (if truthyStr q.title then
      ["title ILIKE $" ++ toString ((if truthyInt q.minSalary then 1 else 0) +
        (if truthyBool q.hasEquity then 1 else 0) + 1)] else []),
    (if truthyInt q.minSalary then [DBValue.i (q.minSalary.getD 0)] else []) ++
    (if truthyBool q.hasEquity then [DBValue.i 0] else []) ++
    (if truthyStr q.title then [DBValue.s ("%" ++ q.title.getD "" ++ "%")] else [])⟩

/-- Spec-side fixed-order emission for Company filters:
[minEmployees, maxEmployees, nameLike]. -/
def companyEmissionSpec (q : CompanyQuery) : WBState :=
  ⟨(if truthyInt q.minEmployees then ["num_employees >= $1"] else []) ++
    (if truthyInt q.maxEmployees then
      ["num_employees <= $" ++ toString ((if truthyInt q.minEmployees then 1 else 0) + 1)]
      else []) ++
    (if truthyStr q.nameLike then
      ["name ILIKE $" ++ toString ((if truthyInt q.minEmployees then 1 else 0) +
        (if truthyInt q.maxEmployees then 1 else 0) + 1)] else []),
    (if truthyInt q.minEmployees then [DBValue.i (q.minEmployees.getD 0)] else []) ++
    (if truthyInt q.maxEmployees then [DBValue.i (q.maxEmployees.getD 0)] else []) ++
    (if truthyStr q.nameLike then [DBValue.s ("%" ++ q.nameLike.getD "" ++ "%")] else [])⟩

/-! ## Helper lemmas -/

theorem assignFrags_length (m : List (String × String)) (cs : List String) (i : Nat) :
    (assignFrags m cs i).length = cs.length := by
  induction cs generalizing i with
  | nil => rfl
  | cons c cs ih => simp [assignFrags, ih]

theorem assignFrags_getElem? (m : List (String × String)) (cs : List String) (i k : Nat) :
    (assignFrags m cs i)[k]? = cs[k]?.map (fun c => colAssign m c (i + k)) := by
  induction cs generalizing i k with
  | nil => simp [assignFrags]
  | cons c cs ih =>
    cases k with
    | zero => simp [assignFrags]
    | succ k =>
      have h : i + 1 + k = i + (k + 1) := by omega
      simp only [assignFrags, List.getElem?_cons_succ, ih, h]

/-- Closed form of the `Job.whereBuilder` condition arrays: conditions are
emitted in the fixed order minSalary, hasEquity, title — each only when its
criterion is truthy — with placeholders numbered consecutively from `$1`. -/
theorem jobBuildState_eq (q : JobQuery) : jobBuildState q = jobEmissionSpec q := by
  by_cases h1 : truthyInt q.minSalary <;> by_cases h2 : truthyBool q.hasEquity <;>
    by_cases h3 : truthyStr q.title <;>
    simp [jobBuildState, jobEmissionSpec, pushCond, h1, h2, h3]
  all_goals rfl

/-- Closed form of the `Company.whereBuilder` condition arrays: conditions
are emitted in the fixed order minEmployees, maxEmployees, nameLike — each
only when its criterion is truthy — with placeholders numbered
consecutively from `$1`. -/
theorem companyBuildState_eq (q : CompanyQuery) : companyBuildState q = companyEmissionSpec q := by
  by_cases h1 : truthyInt q.minEmployees <;> by_cases h2 : truthyInt q.maxEmployees <;>
    by_cases h3 : truthyStr q.nameLike <;>
    simp [companyBuildState, companyEmissionSpec, pushCond, h1, h2, h3]
  all_goals rfl

/-- Lookup via `lookupKey` only depends on the set of key/value pairs when the keys
are distinct: it is invariant under permutation of the list. -/
theorem lookupKey_perm {α : Type} {l1 l2 : List (String × α)} (hp : List.Perm l1 l2)
    (hn : (l1.map Prod.fst).Nodup) (k : String) :
    lookupKey l1 k = lookupKey l2 k := by
  induction hp with
  | nil => rfl
  | cons x hperm ih =>
    simp only [List.map_cons, List.nodup_cons] at hn
    simp only [lookupKey]
    rw [ih hn.2]
  | swap x y l =>
    simp only [List.map_cons, List.nodup_cons, List.mem_cons] at hn
    have hyx : y.1 ≠ x.1 := fun h => hn.1 (Or.inl h)
    by_cases hx : x.1 = k <;> by_cases hy : y.1 = k <;>
      simp [lookupKey, hx, hy]
    exact absurd (hy.trans hx.symm) hyx
  | trans hp1 hp2 ih1 ih2 =>
    have hn2 := ((hp1.map Prod.fst).nodup_iff).mp hn
    rw [ih1 hn, ih2 hn2]

/-! ## Claim theorems -/

/-- C1: the round-trip fails on the code.  Creating a job succeeds and
stores the row under id 1, but `Job.get` on that id reads the companies
table (`FROM companies WHERE id = $1`), whose schema has no `id` (nor job)
columns, so the store rejects the statement and the created job is never
returned. -/
theorem jobCreate_then_get_fails :
    (jobCreate dbC1 jobPayload1).1 =
      .ok [("title", .s "test job"), ("salary", .i 10), ("equity", .s "0.1"),
        ("companyHandle", .s "c1")] ∧
    dbWithJob.jobs = [⟨1, .s "test job", .i 10, .s "0.1", .s "c1"⟩] ∧
    (jobGet dbWithJob (.i 1)).1 = .error (.storeErr "column does not exist in companies") :=
  ⟨rfl, rfl, rfl⟩

/-- C2: `Job.update` fails on the code.  With job id 1 present and the
non-empty mapping `{title: "New"}`, the statement issued is
`UPDATE companies SET "title"=$1 WHERE id = $2`; the companies schema has
neither column, the store rejects it, and the job row is left untouched —
no updated record is ever returned, contradicting the claim. -/
theorem jobUpdate_wrong_table :
    jobUpdate dbWithJob (.i 1) [("title", .s "New")] =
      (.error (.storeErr "column does not exist in companies"), dbWithJob,
        [.update "companies"]) ∧
    dbWithJob.jobs.map JobRow.id = [1] :=
  ⟨rfl, rfl⟩

/-- C3 counterexample: `Job.create` on a valid payload returns the echoed
fields only; the store assigned id 1 (the serial advanced to 2 and the
stored row carries id 1), yet the returned record has no `id` field —
the claim requires the generated id to be included. -/
theorem jobCreate_returns_no_id :
    (jobCreate dbC1 jobPayload1).2.1.nextJobId = 2 ∧
    (jobCreate dbC1 jobPayload1).2.1.jobs.map JobRow.id = [1] ∧
    (jobCreate dbC1 jobPayload1).1 =
      .ok [("title", .s "test job"), ("salary", .i 10), ("equity", .s "0.1"),
        ("companyHandle", .s "c1")] ∧
    lookupKey [("title", DBValue.s "test job"), ("salary", .i 10), ("equity", .s "0.1"),
      ("companyHandle", .s "c1")] "id" = none :=
  ⟨rfl, rfl, rfl, rfl⟩

/-- C3 amended: for every payload whose owning company exists, `Job.create`
inserts the row under the store-assigned id and returns the stored record
with the four payload fields echoed back — without the generated id, which
is absent from the RETURNING list and hence from the returned record. -/
theorem jobCreate_echoes_fields (db : Db) (p : JobPayload)
    (h : db.companies.any (fun r => r.handle == p.companyHandle) = true) :
    jobCreate db p =
      (.ok [("title", p.title), ("salary", p.salary), ("equity", p.equity),
          ("companyHandle", p.companyHandle)],
        ⟨db.companies,
          db.jobs ++ [⟨db.nextJobId, p.title, p.salary, p.equity, p.companyHandle⟩],
          db.nextJobId + 1⟩,
        [.insert "jobs"]) ∧
    lookupKey [("title", p.title), ("salary", p.salary), ("equity", p.equity),
      ("companyHandle", p.companyHandle)] "id" = none := by
  constructor
  · simp [jobCreate, h]
  · rfl

/-- C3 amended, witness at the concrete fixture. -/
theorem jobCreate_echoes_fields_witness :
    jobCreate dbC1 jobPayload1 =
      (.ok [("title", .s "test job"), ("salary", .i 10), ("equity", .s "0.1"),
          ("companyHandle", .s "c1")],
        ⟨dbC1.companies,
          dbC1.jobs ++ [⟨dbC1.nextJobId, .s "test job", .i 10, .s "0.1", .s "c1"⟩],
          dbC1.nextJobId + 1⟩,
        [.insert "jobs"]) ∧
    lookupKey [("title", DBValue.s "test job"), ("salary", .i 10), ("equity", .s "0.1"),
      ("companyHandle", .s "c1")] "id" = none :=
  jobCreate_echoes_fields dbC1 jobPayload1 (by rfl)

/-- C5: an update mapping with zero fields is rejected by
`sqlForPartialUpdate` with the BadRequest "No data" error for every
translation table, and both `Job.update` and `Company.update` propagate
that rejection before issuing any statement: the store trace is empty and
the store is unchanged. -/
theorem emptyUpdate_rejected_before_store :
    (∀ jsToSql, sqlForPartialUpdate [] jsToSql = .error (.badRequest "No data")) ∧
    (∀ db id, jobUpdate db id [] = (.error (.badRequest "No data"), db, [])) ∧
    (∀ db handle, companyUpdate db handle [] = (.error (.badRequest "No data"), db, [])) :=
  ⟨fun _ => rfl, fun _ _ => rfl, fun _ _ => rfl⟩

/-- C4 counterexample: the field `a` appears in the translation table with
translation `""`, but JS `||` falls back on the falsy empty string, so the
emitted column is the untranslated field name `a` — not the translated
name, as the claim requires for every field appearing in the table. -/
theorem sqlForPartialUpdate_empty_translation :
    sqlForPartialUpdate [("a", .i 1)] [("a", "")] = .ok ⟨"\"a\"=$1", [.i 1]⟩ ∧
    lookupKey [("a", "")] "a" = some "" ∧
    "\"a\"=$1" ≠ "\"\"=$1" :=
  ⟨rfl, rfl, by decide⟩

/-- C4 amended: for every non-empty mapping, `sqlForPartialUpdate` emits
exactly one fragment per input field, in enumeration order; the k-th
(0-based) fragment is `"col"=$k+1`, so placeholders run consecutively from
1 in emission order; the value list is the input values in order; the
column is the translated name when the field has a non-empty entry in the
translation table, and the field name unchanged otherwise (a field absent
from the table, or translated to the empty string, keeps its own name). -/
theorem sqlForPartialUpdate_shape (data : List (String × DBValue))
    (jsToSql : List (String × String)) (h : data ≠ []) :
    ∃ frags,
      sqlForPartialUpdate data jsToSql =
        .ok ⟨String.intercalate ", " frags, data.map Prod.snd⟩ ∧
      frags.length = data.length ∧
      (∀ k, ∀ hk : k < data.length,
        frags[k]? =
          some ("\"" ++ colFor jsToSql (data.get ⟨k, hk⟩).1 ++ "\"=$" ++ toString (k + 1))) ∧
      (∀ c, (lookupKey jsToSql c = none ∨ lookupKey jsToSql c = some "") →
        colFor jsToSql c = c) ∧
      (∀ c t, lookupKey jsToSql c = some t → t ≠ "" → colFor jsToSql c = t) := by
  refine ⟨assignFrags jsToSql (data.map Prod.fst) 0, ?_, ?_, ?_, ?_, ?_⟩
  · have hlen : ¬data.length = 0 := by
      intro h0
      exact h (List.length_eq_zero.mp h0)
    simp [sqlForPartialUpdate, hlen]
  · rw [assignFrags_length, List.length_map]
  · intro k hk
    rw [assignFrags_getElem?]
    have hmk : (data.map Prod.fst)[k]? = some (data.get ⟨k, hk⟩).1 := by
      simp [List.getElem?_map, List.getElem?_eq_getElem hk]
    rw [hmk]
    simp [colAssign]
  · intro c hc
    rcases hc with hc | hc <;> simp [colFor, hc]
  · intro c t hc ht
    simp [colFor, hc, ht]

/-- C4 amended, witness at the repository's own unit-test input. -/
theorem sqlForPartialUpdate_shape_witness :
    ∃ frags,
      sqlForPartialUpdate [("firstName", DBValue.s "Test"), ("email", .s "test@example.com")]
          [("firstName", "first_name")] =
        .ok ⟨String.intercalate ", " frags,
          [("firstName", DBValue.s "Test"), ("email", DBValue.s "test@example.com")].map
            Prod.snd⟩ ∧
      frags.length =
        [("firstName", DBValue.s "Test"), ("email", DBValue.s "test@example.com")].length ∧
      (∀ k, ∀ hk : k < [("firstName", DBValue.s "Test"),
            ("email", DBValue.s "test@example.com")].length,
        frags[k]? =
          some ("\"" ++ colFor [("firstName", "first_name")]
              ([("firstName", DBValue.s "Test"), ("email", DBValue.s "test@example.com")].get
                ⟨k, hk⟩).1 ++
            "\"=$" ++ toString (k + 1))) ∧
      (∀ c, (lookupKey [("firstName", "first_name")] c = none ∨
          lookupKey [("firstName", "first_name")] c = some "") →
        colFor [("firstName", "first_name")] c = c) ∧
      (∀ c t, lookupKey [("firstName", "first_name")] c = some t → t ≠ "" →
        colFor [("firstName", "first_name")] c = t) :=
  sqlForPartialUpdate_shape
    [("firstName", DBValue.s "Test"), ("email", DBValue.s "test@example.com")]
    [("firstName", "first_name")] (by decide)

/-- C8: when both employee bounds are present and the minimum exceeds the
maximum, `Company.whereBuilder` fails with the validation error and no
clause or value is produced; `Job.whereBuilder` has no cross-field check
and never fails, for any criteria. -/
theorem companyWhereBuilder_range_validation (x y : Int) (q : CompanyQuery)
    (hmin : q.minEmployees = some x) (hmax : q.maxEmployees = some y) (hgt : x > y) :
    companyWhereBuilder (some q) =
      .error (.badRequest "minimum employees cannot be greater than maximum employees") ∧
    ∀ queries, ∃ w, jobWhereBuilder queries = .ok w := by
  constructor
  · have hb : jsGT q.minEmployees q.maxEmployees = true := by
      rw [hmin, hmax]
      simp [jsGT]
      exact hgt
    simp [companyWhereBuilder, hb]
  · intro queries
    exact ⟨_, rfl⟩

/-- C8 witness at the repository's own failing-range test input. -/
theorem companyWhereBuilder_range_validation_witness :
    companyWhereBuilder (some ⟨none, some 2, some 1⟩) =
      .error (.badRequest "minimum employees cannot be greater than maximum employees") :=
  (companyWhereBuilder_range_validation 2 1 ⟨none, some 2, some 1⟩ rfl rfl (by omega)).1

/-- C9 counterexample: creating a company whose handle is already stored
fails with the BadRequest duplicate error, but the statement trace holds
only the duplicate-check SELECT — no INSERT was ever issued, so no store
uniqueness-violation signal was raised, and the error was not obtained by
translating one. -/
theorem companyCreate_duplicate_no_insert :
    companyCreate dbC1 dupPayload =
      (.error (.badRequest "Duplicate company: c1"), dbC1, [.select "companies"]) ∧
    Stmt.insert "companies" ∉ [Stmt.select "companies"] :=
  ⟨rfl, by decide⟩

/-- C9 amended: `Company.create` decides duplication with a preliminary
existence SELECT: on a handle already present it fails with the domain
"already exists" BadRequest error before any INSERT (no row is added and
the store never signals a uniqueness violation); on a fresh handle the row
is inserted and echoed back. -/
theorem companyCreate_spec (db : Db) (p : CompanyPayload) :
    (db.companies.any (fun r => r.handle == p.handle) = true →
      companyCreate db p =
        (.error (.badRequest ("Duplicate company: " ++ dbValueText p.handle)), db,
          [.select "companies"])) ∧
    (db.companies.any (fun r => r.handle == p.handle) = false →
      companyCreate db p =
        (.ok [("handle", p.handle), ("name", p.name), ("description", p.description),
            ("numEmployees", p.numEmployees), ("logoUrl", p.logoUrl)],
          ⟨db.companies ++ [⟨p.handle, p.name, p.description, p.numEmployees, p.logoUrl⟩],
            db.jobs, db.nextJobId⟩,
          [.select "companies", .insert "companies"])) := by
  constructor <;> intro h <;> simp [companyCreate, h]

/-- C9 amended, witness: a duplicate handle and a fresh handle against the
fixture store. -/
theorem companyCreate_spec_witness :
    companyCreate dbC1 dupPayload =
      (.error (.badRequest ("Duplicate company: " ++ dbValueText dupPayload.handle)), dbC1,
        [.select "companies"]) ∧
    companyCreate dbC1 freshPayload =
      (.ok [("handle", freshPayload.handle), ("name", freshPayload.name),
          ("description", freshPayload.description), ("numEmployees", freshPayload.numEmployees),
          ("logoUrl", freshPayload.logoUrl)],
        ⟨dbC1.companies ++ [⟨freshPayload.handle, freshPayload.name, freshPayload.description,
            freshPayload.numEmployees, freshPayload.logoUrl⟩],
          dbC1.jobs, dbC1.nextJobId⟩,
        [.select "companies", .insert "companies"]) :=
  ⟨(companyCreate_spec dbC1 dupPayload).1 (by rfl),
    (companyCreate_spec dbC1 freshPayload).2 (by rfl)⟩

/-- C10: with exactly one employee bound present, the range comparison is
a JS comparison against `undefined` and evaluates false, so
`Company.whereBuilder` never raises the range-validation error; a truthy
(non-zero) supplied bound contributes its condition as the first emitted
clause with placeholder `$1`. -/
theorem companyWhereBuilder_single_bound (v : Int) (nl : Option String) :
    (∃ w, companyWhereBuilder (some ⟨nl, some v, none⟩) = .ok w) ∧
    (∃ w, companyWhereBuilder (some ⟨nl, none, some v⟩) = .ok w) ∧
    (v ≠ 0 →
      (∃ rest, (companyBuildState ⟨nl, some v, none⟩).stmts = "num_employees >= $1" :: rest) ∧
      (∃ rest, (companyBuildState ⟨nl, none, some v⟩).stmts = "num_employees <= $1" :: rest)) := by
  refine ⟨⟨_, rfl⟩, ⟨_, rfl⟩, fun hv => ⟨?_, ?_⟩⟩
  · have hb : (v != 0) = true := by simpa using hv
    rw [companyBuildState_eq]
    simp [companyEmissionSpec, truthyInt, hb]
  · have hb : (v != 0) = true := by simpa using hv
    rw [companyBuildState_eq]
    simp [companyEmissionSpec, truthyInt, hb]
    rfl

/-- C10 witness: a single bound of 2, no other criteria. -/
theorem companyWhereBuilder_single_bound_witness :
    (∃ w, companyWhereBuilder (some ⟨none, some 2, none⟩) = .ok w) ∧
    (∃ rest,
      (companyBuildState ⟨none, some 2, none⟩).stmts = "num_employees >= $1" :: rest) :=
  ⟨(companyWhereBuilder_single_bound 2 none).1,
    ((companyWhereBuilder_single_bound 2 none).2.2 (by decide)).1⟩

/-- C6 counterexample: `minSalary` is present with value 0, a recognized
criterion, yet JS truthiness drops it — the builder returns the empty
clause with no condition at all, not the one condition per present
criterion the claim requires. -/
theorem jobWhereBuilder_present_zero_dropped :
    (⟨none, some 0, none⟩ : JobQuery).minSalary = some 0 ∧
    jobWhereBuilder (some ⟨none, some 0, none⟩) = .ok ⟨"", []⟩ ∧
    "" ≠ "WHERE salary >= $1" :=
  ⟨rfl, rfl, by decide⟩

/-- C6 amended: a recognized present criterion contributes exactly one
condition when its value is truthy, and nothing when it is falsy (0, empty
string, false); conditions are joined with logical AND under a single
WHERE; for Job, hasEquity true contributes the strict condition
`equity > $k` with parameter 0, and hasEquity false or absent leaves the
output exactly as if the criterion were absent.  The Company builder obeys
the same count rule whenever its range check passes. -/
theorem whereBuilder_truthy_conditions (q : JobQuery) (qc : CompanyQuery) :
    ((jobBuildState q).stmts.length =
      (if truthyInt q.minSalary then 1 else 0) + (if truthyBool q.hasEquity then 1 else 0) +
        (if truthyStr q.title then 1 else 0)) ∧
    (jobWhereBuilder (some q) =
      .ok ⟨joinWhere (jobBuildState q), (jobBuildState q).vals⟩) ∧
    ((jobBuildState q).stmts.length > 0 →
      joinWhere (jobBuildState q) =
        "WHERE " ++ String.intercalate " AND " (jobBuildState q).stmts) ∧
    (truthyBool q.hasEquity = true →
      (jobBuildState q).stmts[(if truthyInt q.minSalary then 1 else 0)]? =
        some ("equity > $" ++ toString ((if truthyInt q.minSalary then 1 else 0) + 1)) ∧
      (jobBuildState q).vals[(if truthyInt q.minSalary then 1 else 0)]? = some (.i 0)) ∧
    (truthyBool q.hasEquity = false →
      jobBuildState q = jobBuildState ⟨q.title, q.minSalary, none⟩) ∧
    (jsGT qc.minEmployees qc.maxEmployees = false →
      companyWhereBuilder (some qc) =
        .ok ⟨joinWhere (companyBuildState qc), (companyBuildState qc).vals⟩ ∧
      (companyBuildState qc).stmts.length =
        (if truthyInt qc.minEmployees then 1 else 0) +
          (if truthyInt qc.maxEmployees then 1 else 0) +
          (if truthyStr qc.nameLike then 1 else 0)) := by
  refine ⟨?_, rfl, ?_, ?_, ?_, ?_⟩
  · rw [jobBuildState_eq]
    by_cases h1 : truthyInt q.minSalary <;> by_cases h2 : truthyBool q.hasEquity <;>
      by_cases h3 : truthyStr q.title <;> simp [jobEmissionSpec, h1, h2, h3]
  · intro hpos
    simp [joinWhere, hpos]
  · intro he
    rw [jobBuildState_eq]
    by_cases h1 : truthyInt q.minSalary <;> simp [jobEmissionSpec, h1, he]
  · intro he
    rw [jobBuildState_eq, jobBuildState_eq]
    simp [jobEmissionSpec, he, show truthyBool none = false from rfl]
  · intro hgt
    refine ⟨by simp [companyWhereBuilder, hgt], ?_⟩
    rw [companyBuildState_eq]
    by_cases h1 : truthyInt qc.minEmployees <;> by_cases h2 : truthyInt qc.maxEmployees <;>
      by_cases h3 : truthyStr qc.nameLike <;> simp [companyEmissionSpec, h1, h2, h3]

/-- C6 amended, witness: all three Job criteria truthy (equity condition at
position 1), hasEquity false behaving as absent, and an in-range Company
filter. -/
theorem whereBuilder_truthy_conditions_witness :
    ((jobBuildState ⟨some "J", some 2, some true⟩).stmts[(if truthyInt (some 2) then 1 else 0)]? =
      some ("equity > $" ++ toString ((if truthyInt (some (2 : Int)) then 1 else 0) + 1)) ∧
      (jobBuildState ⟨some "J", some 2, some true⟩).vals[(if truthyInt (some 2) then 1 else 0)]? =
        some (.i 0)) ∧
    (jobBuildState ⟨some "J", some 2, some false⟩ = jobBuildState ⟨some "J", some 2, none⟩) ∧
    (companyWhereBuilder (some ⟨some "c", some 1, some 2⟩) =
      .ok ⟨joinWhere (companyBuildState ⟨some "c", some 1, some 2⟩),
        (companyBuildState ⟨some "c", some 1, some 2⟩).vals⟩) :=
  ⟨(whereBuilder_truthy_conditions ⟨some "J", some 2, some true⟩
      ⟨some "c", some 1, some 2⟩).2.2.2.1 rfl,
    (whereBuilder_truthy_conditions ⟨some "J", some 2, some false⟩
      ⟨some "c", some 1, some 2⟩).2.2.2.2.1 rfl,
    ((whereBuilder_truthy_conditions ⟨some "J", some 2, some true⟩
      ⟨some "c", some 1, some 2⟩).2.2.2.2.2 (by decide)).1⟩

/-- C7: the builders destructure their criteria object by field name, so two
raw criteria objects holding the same fields with the same values — in any
order — produce identical output; both builders emit conditions in the
fixed entity-specific order (the condition arrays equal the spec-side
fixed-order emission), and with all criteria present the output is exactly
the canonical clause with placeholders $1, $2, $3. -/
theorem whereBuilder_order_invariance (l1 l2 : List (String × DBValue))
    (hp : List.Perm l1 l2) (hn : (l1.map Prod.fst).Nodup) :
    jobWhereBuilderRaw l1 = jobWhereBuilderRaw l2 ∧
    companyWhereBuilderRaw l1 = companyWhereBuilderRaw l2 ∧
    (∀ q, jobBuildState q = jobEmissionSpec q) ∧
    (∀ q, companyBuildState q = companyEmissionSpec q) ∧
    jobWhereBuilderRaw [("title", .s "J"), ("minSalary", .i 2), ("hasEquity", .b true)] =
      .ok ⟨"WHERE salary >= $1 AND equity > $2 AND title ILIKE $3", [.i 2, .i 0, .s "%J%"]⟩ ∧
    companyWhereBuilderRaw
        [("nameLike", .s "c"), ("minEmployees", .i 2), ("maxEmployees", .i 3)] =
      .ok ⟨"WHERE num_employees >= $1 AND num_employees <= $2 AND name ILIKE $3",
        [.i 2, .i 3, .s "%c%"]⟩ := by
  have hl := fun k => lookupKey_perm hp hn k
  refine ⟨?_, ?_, jobBuildState_eq, companyBuildState_eq, rfl, rfl⟩
  · unfold jobWhereBuilderRaw parseJobQuery getStrField getIntField getBoolField
    rw [hl "title", hl "minSalary", hl "hasEquity"]
  · unfold companyWhereBuilderRaw parseCompanyQuery getStrField getIntField
    rw [hl "nameLike", hl "minEmployees", hl "maxEmployees"]

/-- C7 witness: the same two criteria presented in both orders. -/
theorem whereBuilder_order_invariance_witness :
    jobWhereBuilderRaw [("minSalary", DBValue.i 2), ("title", .s "J")] =
      jobWhereBuilderRaw [("title", DBValue.s "J"), ("minSalary", .i 2)] :=
  (whereBuilder_order_invariance [("minSalary", DBValue.i 2), ("title", .s "J")]
    [("title", DBValue.s "J"), ("minSalary", .i 2)]
    (List.Perm.swap ("title", DBValue.s "J") ("minSalary", DBValue.i 2) [])
    (by decide)).1

-- Sanity examples mirroring the whereBuilder unit tests of the repository.
example : jobWhereBuilder none = .ok ⟨"", []⟩ := rfl
example : jobWhereBuilder (some ⟨some "J", none, none⟩) =
    .ok ⟨"WHERE title ILIKE $1", [.s "%J%"]⟩ := by rfl
example : jobWhereBuilder (some ⟨none, some 2, none⟩) =
    .ok ⟨"WHERE salary >= $1", [.i 2]⟩ := by rfl
example : jobWhereBuilder (some ⟨none, none, some true⟩) =
    .ok ⟨"WHERE equity > $1", [.i 0]⟩ := by rfl
example : jobWhereBuilder (some ⟨some "J", some 2, some true⟩) =
    .ok ⟨"WHERE salary >= $1 AND equity > $2 AND title ILIKE $3", [.i 2, .i 0, .s "%J%"]⟩ := by
  rfl
example : companyWhereBuilder (some ⟨some "c", some 2, some 2⟩) =
    .ok ⟨"WHERE num_employees >= $1 AND num_employees <= $2 AND name ILIKE $3",
      [.i 2, .i 2, .s "%c%"]⟩ := by rfl
example : companyWhereBuilder (some ⟨none, some 2, some 1⟩) =
    .error (.badRequest "minimum employees cannot be greater than maximum employees") := by
  rfl
example : sqlForPartialUpdate [("firstName", .s "Test"), ("email", .s "test@example.com")]
      [("firstName", "first_name")] =
    .ok ⟨"\"first_name\"=$1, \"email\"=$2", [.s "Test", .s "test@example.com"]⟩ := by rfl

end Jobly
